import Mathlib

/-!
Verification development for the bank-reconciliation matching core of the
scooterbug_erpnext repository.

The code-derived definitions below embed the client logic of
src/bookingzone/pages/bank_reconciliation/bank_reconciliation.js
(the BankReconciler class): the match-suggestion lookup
(load_match_suggestions), the summary computation (update_summary) and the
surrounding data model.  Monetary amounts are embedded as rationals; the
candidate pools returned by the document store are taken as inputs, one list
per document type, in the order the store returns them (the query passes no
ordering clause).

The server-side bulk pass (bookingzone.api.bulk_categorize_transactions) is
not part of the supplied sources; the definitions in the second section are
modelled from the specification of the Matcher, Auto-Categorizer and
Reconciliation Orchestrator and are marked as such.
-/

/-- Reconciliation status of a bank transaction (data model: `Unreconciled`,
`Suggested`, `Reconciled`). -/
inductive TxnStatus where
  | Unreconciled
  | Suggested
  | Reconciled
deriving DecidableEq, Repr

/-- A bank transaction, with the fields the page requests from the store:
name, date, description, deposit, withdrawal, unallocated_amount, status. -/
structure BankTransaction where
  name : String
  date : Nat
  description : String
  deposit : ℚ
  withdrawal : ℚ
  unallocated_amount : ℚ
  status : TxnStatus
deriving DecidableEq, Repr

/-- A candidate document (invoice), with the fields the suggestion query
requests: name, grand_total, outstanding_amount, party, posting_date. -/
structure CandidateDoc where
  name : String
  grand_total : ℚ
  outstanding_amount : ℚ
  party : String
  posting_date : Nat
deriving DecidableEq, Repr

/-- The two candidate document types the suggestion query can target. -/
inductive DocType where
  | SalesInvoice
  | PurchaseInvoice
deriving DecidableEq, Repr

/-- `const isDeposit = txn.deposit > 0` (bank_reconciliation.js line 423). -/
def txn_is_deposit (t : BankTransaction) : Bool :=
  decide (0 < t.deposit)

/-- `const amount = isDeposit ? txn.deposit : txn.withdrawal` (line 424). -/
def txn_amount (t : BankTransaction) : ℚ :=
  if txn_is_deposit t then t.deposit else t.withdrawal

/-- `const doctype = isDeposit ? 'Sales Invoice' : 'Purchase Invoice'`
(line 427). -/
def suggestion_doctype (t : BankTransaction) : DocType :=
  if txn_is_deposit t then DocType.SalesInvoice else DocType.PurchaseInvoice

/-- The filter the suggestion query sends to the store (lines 433-436):
`outstanding_amount: ['>', 0]` and
`grand_total: ['between', [amount * 0.95, amount * 1.05]]` (inclusive). -/
def match_suggestion_filter (amount : ℚ) (d : CandidateDoc) : Bool :=
  decide (0 < d.outstanding_amount) &&
  decide (amount * (95 / 100) ≤ d.grand_total) &&
  decide (d.grand_total ≤ amount * (105 / 100))

/-- `load_match_suggestions` (lines 421-475): picks the pool by direction,
filters it with the query filter, and caps the result at `limit: 10`
(line 438).  No ordering clause is sent, so the store order of the
pool is preserved.  The function is total: an empty result is rendered as
"No matching documents found", never raised as an error. -/
def load_match_suggestions (t : BankTransaction)
    (pools : DocType → List CandidateDoc) : List CandidateDoc :=
  (((pools (suggestion_doctype t)).filter
      (match_suggestion_filter (txn_amount t))).take 10)

/-- The summary figures computed by `update_summary` (lines 385-395). -/
structure SummaryCounts where
  total_deposits : ℚ
  total_withdrawals : ℚ
  unreconciled_count : Nat
  auto_matched : Nat
deriving DecidableEq, Repr

/-- `update_summary` (lines 385-395): sums of deposits and withdrawals,
count of transactions with status other than Reconciled, and count of
transactions with zero unallocated amount and status other than
Reconciled. -/
def update_summary (txns : List BankTransaction) : SummaryCounts :=
  { total_deposits := (txns.map (fun t => t.deposit)).sum
  , total_withdrawals := (txns.map (fun t => t.withdrawal)).sum
  , unreconciled_count :=
      (txns.filter (fun t => decide (t.status ≠ TxnStatus.Reconciled))).length
  , auto_matched :=
      (txns.filter (fun t =>
        decide (t.unallocated_amount = 0 ∧ t.status ≠ TxnStatus.Reconciled))).length }

/-- The client-side state the matcher could in principle touch: the loaded
transaction list and the candidate pools.  `load_match_suggestions` only
renders suggestions into the page, so the state component of its step is
returned unchanged. -/
structure ReconcilerState where
  transactions : List BankTransaction
  pools : DocType → List CandidateDoc

/-- The suggestion lookup as a state-passing step: it reads the pools and
produces the suggestion list; the callback (lines 440-473) writes only page
markup, no transaction, pool or status field, so the state is passed through
unchanged. -/
def load_match_suggestions_step (t : BankTransaction) (s : ReconcilerState) :
    ReconcilerState × List CandidateDoc :=
  (s, load_match_suggestions t s.pools)

/-- The filter the specification describes for the Matcher, section 4.1:
outstanding amount strictly positive and outstanding amount within ±5% of
the transaction amount.  Stated from the wording of the spec, for comparison
with `match_suggestion_filter`, which the code applies to `grand_total`. -/
def spec_outstanding_filter (amount : ℚ) (d : CandidateDoc) : Bool :=
  decide (0 < d.outstanding_amount) &&
  decide (amount * (95 / 100) ≤ d.outstanding_amount) &&
  decide (d.outstanding_amount ≤ amount * (105 / 100))

/- Concrete fixtures used by counterexamples and witnesses. -/

/-- A withdrawal of 100.00 (deposit 0), unreconciled. -/
def txnW100 : BankTransaction :=
  { name := "T-W100", date := 10, description := "ACH DEBIT", deposit := 0
  , withdrawal := 100, unallocated_amount := 100
  , status := TxnStatus.Unreconciled }

/-- A transaction with deposit and withdrawal both zero. -/
def txnZero : BankTransaction :=
  { name := "T-ZERO", date := 11, description := "VOID", deposit := 0
  , withdrawal := 0, unallocated_amount := 0
  , status := TxnStatus.Unreconciled }

/-- A purchase invoice with grand total 100 but outstanding only 50. -/
def docHalfPaid : CandidateDoc :=
  { name := "PINV-1", grand_total := 100, outstanding_amount := 50
  , party := "Acme", posting_date := 3 }

/-- A purchase invoice with grand total and outstanding both 95. -/
def doc95 : CandidateDoc :=
  { name := "PINV-95", grand_total := 95, outstanding_amount := 95
  , party := "Acme", posting_date := 5 }

/-- A purchase invoice with grand total and outstanding both 100. -/
def doc100 : CandidateDoc :=
  { name := "PINV-100", grand_total := 100, outstanding_amount := 100
  , party := "Acme", posting_date := 9 }

/-- A purchase invoice with grand total and outstanding both 80. -/
def doc80 : CandidateDoc :=
  { name := "PINV-80", grand_total := 80, outstanding_amount := 80
  , party := "Acme", posting_date := 4 }

/-- A zero-total invoice with positive outstanding amount. -/
def docZero : CandidateDoc :=
  { name := "PINV-0", grand_total := 0, outstanding_amount := 5
  , party := "Acme", posting_date := 2 }

/-- Pool containing only the half-paid invoice, for every document type. -/
def poolsHalfPaid : DocType → List CandidateDoc := fun _ => [docHalfPaid]

/-- Pool containing only the zero-total invoice. -/
def poolsZero : DocType → List CandidateDoc := fun _ => [docZero]

/-- Pool listing the 95 invoice before the 100 invoice (store order). -/
def poolsOrdered : DocType → List CandidateDoc := fun _ => [doc95, doc100]

/-- Pool containing only the 80 invoice. -/
def pools80 : DocType → List CandidateDoc := fun _ => [doc80]

/-!
Spec-modelled section.  The server entry point
`bookingzone.api.bulk_categorize_transactions` (invoked by `auto_categorize`
at line 507 of bank_reconciliation.js) is code of this repository that is not
among the supplied sources; the Matcher, Auto-Categorizer and Reconciliation
Orchestrator below are modelled from sections 4.1-4.3, 5 and 7 of the
specification.
-/

/-- Modelled from the spec: a Bank Rule (section 3) — pattern, target
account, optional target party, auto-reconcile flag. -/
structure BankRule where
  name : String
  pattern : String
  account : String
  party : Option String
  auto_reconcile : Bool
deriving DecidableEq, Repr

/-- Modelled from the spec: a bank transaction as the Orchestrator sees it,
carrying the linked voucher reference and the proposal list most recently
offered (section 3, invariant paragraph). -/
structure STxn where
  name : String
  description : String
  deposit : ℚ
  withdrawal : ℚ
  status : TxnStatus
  linked_voucher : Option String
  proposals : List String
deriving DecidableEq, Repr

/-- Modelled from the spec: the Matcher error taxonomy (section 7). -/
inductive MatchError where
  | InvalidTransactionError
deriving DecidableEq, Repr

/-- Modelled from the spec: a transaction is well formed when exactly one of
deposit and withdrawal is nonzero (section 3 and 4.1). -/
def stxn_valid (t : STxn) : Bool :=
  (decide (t.deposit ≠ 0) && decide (t.withdrawal = 0)) ||
  (decide (t.deposit = 0) && decide (t.withdrawal ≠ 0))

/-- Modelled from the spec: the amount of a well-formed transaction: the
deposit when it is nonzero, otherwise the withdrawal. -/
def stxn_amount (t : STxn) : ℚ :=
  if t.deposit ≠ 0 then t.deposit else t.withdrawal

/-- Modelled from the spec (section 4.3): ranking of proposals — ascending
absolute amount difference, ties by ascending posting date, then by
candidate identifier. -/
def proposal_le (amount : ℚ) (a b : CandidateDoc) : Bool :=
  decide (|a.outstanding_amount - amount| < |b.outstanding_amount - amount|) ||
  (decide (|a.outstanding_amount - amount| = |b.outstanding_amount - amount|) &&
    (decide (a.posting_date < b.posting_date) ||
      (decide (a.posting_date = b.posting_date) && !decide (b.name < a.name))))

/-- Insertion of one element into a list sorted by `le`. -/
def insert_by (le : CandidateDoc → CandidateDoc → Bool) (a : CandidateDoc) :
    List CandidateDoc → List CandidateDoc
  | [] => [a]
  | b :: bs => if le a b then a :: b :: bs else b :: insert_by le a bs

/-- Insertion sort by `le`. -/
def sort_by (le : CandidateDoc → CandidateDoc → Bool) :
    List CandidateDoc → List CandidateDoc
  | [] => []
  | x :: xs => insert_by le x (sort_by le xs)

/-- Modelled from the spec (section 4.1): `findCandidates` — fails with
`InvalidTransactionError` on a malformed transaction, otherwise filters the
pool by positive outstanding amount within ±5% of the transaction amount and
sorts by the ranking above. -/
def findCandidates (t : STxn) (pool : List CandidateDoc) :
    Except MatchError (List CandidateDoc) :=
  if stxn_valid t then
    Except.ok (sort_by (proposal_le (stxn_amount t))
      (pool.filter (spec_outstanding_filter (stxn_amount t))))
  else
    Except.error MatchError.InvalidTransactionError

/-- Bool test: the list `p` begins the list `s`. -/
def chars_start (p s : List Char) : Bool :=
  match p, s with
  | [], _ => true
  | _ :: _, [] => false
  | c :: cs, d :: ds => (c == d) && chars_start cs ds

/-- Bool test: the list `p` occurs contiguously inside `s`. -/
def chars_occur (p : List Char) : List Char → Bool
  | [] => p.isEmpty
  | c :: rest => chars_start p (c :: rest) || chars_occur p rest

/-- Modelled from the spec (section 4.2): a rule matches when its pattern is
a substring of the transaction description, compared case-insensitively. -/
def rule_matches (r : BankRule) (t : STxn) : Bool :=
  chars_occur r.pattern.toLower.data t.description.toLower.data

/-- Modelled from the spec (section 4.2): `categorize` — first rule in store
order whose pattern is a substring of the normalized description; `none`
when no rule matches, which is not an error. -/
def categorize (t : STxn) (rules : List BankRule) : Option BankRule :=
  rules.find? (fun r => rule_matches r t)

/-- Modelled from the spec (section 4.3): the bulk result counters,
including the `failed` count of section 7. -/
structure BulkResult where
  processed : Nat
  reconciled : Nat
  suggested : Nat
  unreconciled : Nat
  failed : Nat
deriving DecidableEq, Repr

/-- Modelled from the spec (section 5): decrement the in-memory outstanding
balance of the claimed candidate within the pass. -/
def claim_candidate (pool : List CandidateDoc) (docName : String) (amt : ℚ) :
    List CandidateDoc :=
  pool.map (fun d =>
    if d.name = docName then
      { d with outstanding_amount := d.outstanding_amount - amt }
    else d)

/-- State threaded through one bulk pass: the shared candidate pool (with
in-pass claims applied) and the running counters. -/
structure PassState where
  pool : List CandidateDoc
  result : BulkResult
deriving DecidableEq, Repr

/-- Modelled from the spec (section 4.3, step 3): run the Matcher for one
transaction and apply its outcome: exact and unique match reconciles and
claims the candidate; any other nonempty proposal list suggests; an empty
list leaves the transaction unreconciled; a matcher error counts as
failed. -/
def process_match (st : PassState) (t : STxn) (res : BulkResult) :
    STxn × PassState :=
  match findCandidates t st.pool with
  | Except.error _ =>
      (t, { st with result := { res with failed := res.failed + 1 } })
  | Except.ok [] =>
      ({ t with status := TxnStatus.Unreconciled, proposals := [] },
        { st with result := { res with unreconciled := res.unreconciled + 1 } })
  | Except.ok [d] =>
      if |d.outstanding_amount - stxn_amount t| = 0 then
        ({ t with status := TxnStatus.Reconciled,
                  linked_voucher := some d.name, proposals := [] },
          { pool := claim_candidate st.pool d.name (stxn_amount t),
            result := { res with reconciled := res.reconciled + 1 } })
      else
        ({ t with status := TxnStatus.Suggested, proposals := [d.name] },
          { st with result := { res with suggested := res.suggested + 1 } })
  | Except.ok (d :: e :: ds) =>
      ({ t with status := TxnStatus.Suggested,
                proposals := (d :: e :: ds).map (fun c => c.name) },
        { st with result := { res with suggested := res.suggested + 1 } })

/-- Modelled from the spec (section 4.3): process one transaction — skip it
unchanged when already Reconciled; otherwise categorize (auto-reconcile rule
wins) and fall through to the Matcher. -/
def process_txn (rules : List BankRule) (st : PassState) (t : STxn) :
    STxn × PassState :=
  if t.status = TxnStatus.Reconciled then (t, st)
  else
    let res := { st.result with processed := st.result.processed + 1 }
    match categorize t rules with
    | some r =>
        if r.auto_reconcile then
          ({ t with status := TxnStatus.Reconciled,
                    linked_voucher := some r.account, proposals := [] },
            { st with result := { res with reconciled := res.reconciled + 1 } })
        else process_match st t res
    | none => process_match st t res

/-- The sequential fold of `process_txn` over the transaction list, in
order, returning the updated transactions and the final pass state. -/
def run_bulk_aux (rules : List BankRule) :
    List STxn → PassState → List STxn × PassState
  | [], st => ([], st)
  | t :: ts, st =>
    let p := process_txn rules st t
    let q := run_bulk_aux rules ts p.2
    (p.1 :: q.1, q.2)

/-- Modelled from the spec (section 4.3): `runBulkPass` over a transaction
set, a candidate pool and a rule set, starting from zero counters. -/
def runBulkPass (txns : List STxn) (pool : List CandidateDoc)
    (rules : List BankRule) : List STxn × PassState :=
  run_bulk_aux rules txns
    { pool := pool
    , result := { processed := 0, reconciled := 0, suggested := 0
                , unreconciled := 0, failed := 0 } }

/-- Two consecutive bulk passes: the second runs on the transactions and the
pool state produced by the first (claims persisted by the collaborator). -/
def two_bulk_passes (txns : List STxn) (pool : List CandidateDoc)
    (rules : List BankRule) : List STxn × PassState :=
  let r1 := runBulkPass txns pool rules
  runBulkPass r1.1 r1.2.pool rules

/-- The invariant of section 3: Reconciled carries a voucher reference,
Suggested carries at least one offered proposal, Unreconciled carries
none. -/
def txn_invariant (t : STxn) : Prop :=
  (t.status = TxnStatus.Reconciled → t.linked_voucher ≠ none) ∧
  (t.status = TxnStatus.Suggested → t.proposals ≠ []) ∧
  (t.status = TxnStatus.Unreconciled → t.proposals = [])

/- Concrete fixtures for the orchestrator claims. -/

/-- Unreconciled withdrawal of 100 for the bulk pass scenarios. -/
def sT1 : STxn :=
  { name := "S-T1", description := "WIRE OUT", deposit := 0, withdrawal := 100
  , status := TxnStatus.Unreconciled, linked_voucher := none, proposals := [] }

/-- Unreconciled withdrawal of 95 for the bulk pass scenarios. -/
def sT2 : STxn :=
  { name := "S-T2", description := "WIRE OUT", deposit := 0, withdrawal := 95
  , status := TxnStatus.Unreconciled, linked_voucher := none, proposals := [] }

/-- An already reconciled transaction with a linked voucher. -/
def sTRec : STxn :=
  { name := "S-REC", description := "CHECK", deposit := 0, withdrawal := 40
  , status := TxnStatus.Reconciled, linked_voucher := some "PE-7"
  , proposals := [] }

/-- Candidate with outstanding 100 for the bulk pass scenarios. -/
def cX : CandidateDoc :=
  { name := "X", grand_total := 100, outstanding_amount := 100
  , party := "Acme", posting_date := 1 }

/-- Candidate with outstanding 95 for the bulk pass scenarios. -/
def cY : CandidateDoc :=
  { name := "Y", grand_total := 95, outstanding_amount := 95
  , party := "Acme", posting_date := 2 }

/-! Helper lemmas. -/

/-- Filtering by a stronger predicate yields at most as many elements. -/
theorem length_filter_mono {α : Type} (p q : α → Bool)
    (h : ∀ a, p a = true → q a = true) (l : List α) :
    (l.filter p).length ≤ (l.filter q).length := by
  induction l with
  | nil => simp
  | cons a l ih =>
    by_cases hp : p a = true
    · rw [List.filter_cons_of_pos hp, List.filter_cons_of_pos (h a hp)]
      simpa using ih
    · rw [List.filter_cons_of_neg hp]
      by_cases hq : q a = true
      · rw [List.filter_cons_of_pos hq]
        exact ih.trans (Nat.le_succ _)
      · rw [List.filter_cons_of_neg hq]
        exact ih

/-! Claims about the suggestion lookup of bank_reconciliation.js. -/

/-- C1 (counterexample): the suggestion filter admits a document whose
grand total is within ±5% of the transaction amount even though its
outstanding amount (50 against a withdrawal of 100) is far outside the
±5% tolerance the claim states, so the filter is not the outstanding-amount
filter of the claim. -/
theorem C1_counterexample :
    docHalfPaid ∈ load_match_suggestions txnW100 poolsHalfPaid ∧
    spec_outstanding_filter (txn_amount txnW100) docHalfPaid = false := by
  constructor
  · norm_num [load_match_suggestions, poolsHalfPaid, suggestion_doctype,
      txn_is_deposit, txn_amount, txnW100, docHalfPaid,
      match_suggestion_filter, List.filter_cons]
  · norm_num [spec_outstanding_filter, txn_amount, txn_is_deposit,
      txnW100, docHalfPaid]

/-- C1 (amended): the candidate filter tests the grand total, not the
outstanding amount, against the ±5% window, together with a strictly
positive outstanding amount; when at most ten pool documents pass the
filter, the result admits exactly the passing documents. -/
theorem C1_amended_filter (t : BankTransaction)
    (pools : DocType → List CandidateDoc)
    (hlen : ((pools (suggestion_doctype t)).filter
        (match_suggestion_filter (txn_amount t))).length ≤ 10)
    (d : CandidateDoc) :
    d ∈ load_match_suggestions t pools ↔
      d ∈ pools (suggestion_doctype t) ∧
        match_suggestion_filter (txn_amount t) d = true := by
  unfold load_match_suggestions
  rw [List.take_of_length_le hlen, List.mem_filter]

/-- C1 witness: the amended characterization applied to the half-paid
invoice fixture. -/
theorem C1_amended_filter_witness :
    docHalfPaid ∈ load_match_suggestions txnW100 poolsHalfPaid ↔
      docHalfPaid ∈ poolsHalfPaid (suggestion_doctype txnW100) ∧
        match_suggestion_filter (txn_amount txnW100) docHalfPaid = true :=
  C1_amended_filter txnW100 poolsHalfPaid
    (by norm_num [poolsHalfPaid, suggestion_doctype, txn_is_deposit,
      txn_amount, txnW100, docHalfPaid, match_suggestion_filter,
      List.filter_cons]) docHalfPaid

/-- C2 (counterexample): on a transaction whose deposit and withdrawal are
both zero the lookup does not fail; it queries the payable pool with amount
zero and here even produces a proposal (a zero-total invoice with positive
outstanding amount), contradicting the claimed InvalidTransactionError. -/
theorem C2_counterexample :
    load_match_suggestions txnZero poolsZero = [docZero] ∧
    suggestion_doctype txnZero = DocType.PurchaseInvoice := by
  constructor
  · norm_num [load_match_suggestions, poolsZero, suggestion_doctype,
      txn_is_deposit, txn_amount, txnZero, docZero,
      match_suggestion_filter, List.filter_cons]
  · norm_num [suggestion_doctype, txn_is_deposit, txnZero]

/-- C2 (amended): the lookup never fails; it is a total function that
selects the receivable (Sales Invoice) pool exactly when the deposit is
positive and the payable (Purchase Invoice) pool otherwise — including when
both amounts are zero or both are nonzero (the deposit then wins). -/
theorem C2_amended_direction (t : BankTransaction) :
    (suggestion_doctype t = DocType.SalesInvoice ↔ 0 < t.deposit) ∧
    (suggestion_doctype t = DocType.PurchaseInvoice ↔ ¬ 0 < t.deposit) := by
  unfold suggestion_doctype txn_is_deposit
  by_cases h : 0 < t.deposit <;> simp [h]

/-- C3 (counterexample): with the payable candidates listed as
[outstanding 95, outstanding 100] by the store, a withdrawal of 100 yields
the suggestions in store order — the 95 candidate first — not the claimed
closest-amount-first order with the exact 100 match first. -/
theorem C3_counterexample :
    load_match_suggestions txnW100 poolsOrdered = [doc95, doc100] ∧
    doc95 ≠ doc100 := by
  constructor
  · norm_num [load_match_suggestions, poolsOrdered, suggestion_doctype,
      txn_is_deposit, txn_amount, txnW100, doc95, doc100,
      match_suggestion_filter, List.filter_cons]
  · decide

/-- C3 (amended): the lookup applies no ordering of its own — the query
names no ordering clause — so the suggestions are a sublist of the candidate
pool in the store order in which the pool was supplied. -/
theorem C3_amended_order (t : BankTransaction)
    (pools : DocType → List CandidateDoc) :
    List.Sublist (load_match_suggestions t pools)
      (pools (suggestion_doctype t)) := by
  unfold load_match_suggestions
  exact (List.take_sublist _ _).trans (List.filter_sublist _)

/-- C5: when no pool document passes the amount filter the lookup returns
the empty list as an ordinary value — the result type has no error outcome,
so absence of a match never raises. -/
theorem C5_no_match_empty (t : BankTransaction)
    (pools : DocType → List CandidateDoc)
    (h : ∀ d ∈ pools (suggestion_doctype t),
        match_suggestion_filter (txn_amount t) d = false) :
    load_match_suggestions t pools = [] := by
  unfold load_match_suggestions
  rw [List.filter_eq_nil_iff.mpr fun a ha => by simp [h a ha]]
  rfl

/-- C5 witness: a withdrawal of 100 against a sole payable candidate with
outstanding (and total) 80, outside the 5% window, yields the empty list. -/
theorem C5_no_match_empty_witness :
    (∀ d ∈ pools80 (suggestion_doctype txnW100),
        match_suggestion_filter (txn_amount txnW100) d = false) ∧
    load_match_suggestions txnW100 pools80 = [] := by
  refine ⟨?_, C5_no_match_empty txnW100 pools80 ?_⟩ <;>
  · intro d hd
    have hd80 : d = doc80 := by
      simpa [pools80] using hd
    subst hd80
    norm_num [match_suggestion_filter, txn_amount, txn_is_deposit,
      txnW100, doc80]

/-- C7: the suggestion lookup is deterministic — two runs on equal
transaction and candidate-pool inputs return equal ordered suggestion
lists. -/
theorem C7_deterministic (t₁ t₂ : BankTransaction)
    (pools₁ pools₂ : DocType → List CandidateDoc)
    (ht : t₁ = t₂) (hp : pools₁ = pools₂) :
    load_match_suggestions t₁ pools₁ = load_match_suggestions t₂ pools₂ := by
  rw [ht, hp]

/-- C7 witness: determinism applied at the ordered fixture pool. -/
theorem C7_deterministic_witness :
    load_match_suggestions txnW100 poolsOrdered =
      load_match_suggestions txnW100 poolsOrdered :=
  C7_deterministic txnW100 txnW100 poolsOrdered poolsOrdered rfl rfl

/-- C8: the suggestion lookup is a pure query — as a step over the client
state (transactions and pools) it returns the state unchanged, writing no
transaction, pool or status field. -/
theorem C8_pure_query (t : BankTransaction) (s : ReconcilerState) :
    (load_match_suggestions_step t s).1 = s := rfl

/-- C9: the suggestion query carries `limit: 10`, so the lookup returns at
most ten documents no matter how many pool documents pass the filter. -/
theorem C9_limit_ten (t : BankTransaction)
    (pools : DocType → List CandidateDoc) :
    (load_match_suggestions t pools).length ≤ 10 := by
  unfold load_match_suggestions
  rw [List.length_take]
  exact Nat.min_le_left _ _

/-- C10: the Auto-Matched figure counts transactions with zero unallocated
amount and status other than Reconciled, a subset of the transactions the
Unreconciled figure counts, so Auto-Matched never exceeds Unreconciled. -/
theorem C10_auto_matched_le_unreconciled (txns : List BankTransaction) :
    (update_summary txns).auto_matched ≤
      (update_summary txns).unreconciled_count := by
  unfold update_summary
  exact length_filter_mono _ _ (fun a ha => by
    simp only [decide_eq_true_eq] at ha ⊢
    exact ha.2) txns

/-! Status disequality helpers used when evaluating the orchestrator. -/

theorem txnStatus_unrec_ne_rec :
    (TxnStatus.Unreconciled = TxnStatus.Reconciled) = False := by decide

theorem txnStatus_unrec_ne_sugg :
    (TxnStatus.Unreconciled = TxnStatus.Suggested) = False := by decide

theorem txnStatus_sugg_ne_rec :
    (TxnStatus.Suggested = TxnStatus.Reconciled) = False := by decide

theorem txnStatus_sugg_ne_unrec :
    (TxnStatus.Suggested = TxnStatus.Unreconciled) = False := by decide

theorem txnStatus_rec_ne_sugg :
    (TxnStatus.Reconciled = TxnStatus.Suggested) = False := by decide

theorem txnStatus_rec_ne_unrec :
    (TxnStatus.Reconciled = TxnStatus.Unreconciled) = False := by decide

theorem str_X_ne_Y : (("X" : String) = "Y") = False := by decide

/-- One matcher step preserves the status invariant of section 3. -/
theorem process_match_inv (st : PassState) (t : STxn) (res : BulkResult)
    (h : txn_invariant t) : txn_invariant (process_match st t res).1 := by
  unfold process_match
  cases hfc : findCandidates t st.pool with
  | error e =>
    exact h
  | ok l =>
    cases l with
    | nil =>
      simp [txn_invariant, txnStatus_unrec_ne_rec, txnStatus_unrec_ne_sugg]
    | cons d l2 =>
      cases l2 with
      | nil =>
        by_cases hd : d.outstanding_amount - stxn_amount t = 0
        · simp [txn_invariant, hd, txnStatus_rec_ne_sugg,
            txnStatus_rec_ne_unrec]
        · simp [txn_invariant, hd, txnStatus_sugg_ne_rec,
            txnStatus_sugg_ne_unrec]
      | cons e ds =>
        simp [txn_invariant, txnStatus_sugg_ne_rec, txnStatus_sugg_ne_unrec]

/-- One orchestrator step preserves the status invariant of section 3. -/
theorem process_txn_inv (rules : List BankRule) (st : PassState) (t : STxn)
    (h : txn_invariant t) : txn_invariant (process_txn rules st t).1 := by
  unfold process_txn
  by_cases hrec : t.status = TxnStatus.Reconciled
  · simp only [if_pos hrec]
    exact h
  · simp only [if_neg hrec]
    cases hc : categorize t rules with
    | none =>
      simp only [hc]
      exact process_match_inv st t _ h
    | some r =>
      simp only [hc]
      by_cases har : r.auto_reconcile = true
      · simp [if_pos har, txn_invariant, txnStatus_rec_ne_sugg,
          txnStatus_rec_ne_unrec]
      · simp only [if_neg har]
        exact process_match_inv st t _ h

/-- A reconciled transaction is returned unchanged, at its position, by the
bulk fold, whatever the pass state. -/
theorem run_bulk_aux_skip (rules : List BankRule) :
    ∀ (ts : List STxn) (st : PassState) (i : Nat) (t : STxn),
      ts[i]? = some t → t.status = TxnStatus.Reconciled →
      ((run_bulk_aux rules ts st).1)[i]? = some t := by
  intro ts
  induction ts with
  | nil =>
    intro st i t h hrec
    simp at h
  | cons x xs ih =>
    intro st i t h hrec
    cases i with
    | zero =>
      simp only [List.getElem?_cons_zero, Option.some.injEq] at h
      subst h
      simp [run_bulk_aux, process_txn, hrec]
    | succ n =>
      simp only [List.getElem?_cons_succ] at h
      simp only [run_bulk_aux, List.getElem?_cons_succ]
      exact ih _ n t h hrec

/-- The bulk fold preserves the status invariant of every transaction. -/
theorem run_bulk_aux_inv (rules : List BankRule) :
    ∀ (ts : List STxn) (st : PassState),
      (∀ t ∈ ts, txn_invariant t) →
      ∀ u ∈ (run_bulk_aux rules ts st).1, txn_invariant u := by
  intro ts
  induction ts with
  | nil =>
    intro st h u hu
    simp [run_bulk_aux] at hu
  | cons x xs ih =>
    intro st h u hu
    simp only [run_bulk_aux] at hu
    rcases List.mem_cons.mp hu with hu1 | hu2
    · rw [hu1]
      exact process_txn_inv rules st x (h x (by simp))
    · exact ih _ (fun t ht => h t (by simp [ht])) u hu2

/-! Claims about the bulk reconciliation pass (spec-modelled). -/

/-- C4 (counterexample): running the bulk pass twice on the same transaction
set does not leave the second run with a zero reconciled count.  First pass:
the 100 withdrawal sees two candidates within tolerance (Suggested), the 95
withdrawal reconciles exactly against the 95 candidate and claims it.
Second pass: the claimed candidate has no outstanding amount left, so the
100 withdrawal now sees exactly one exact candidate and is reconciled —
the second run reconciles one further transaction. -/
theorem C4_counterexample :
    (two_bulk_passes [sT1, sT2] [cX, cY] []).2.result.reconciled = 1 := by
  norm_num [two_bulk_passes, runBulkPass, run_bulk_aux, process_txn,
    process_match, categorize, findCandidates, stxn_valid, stxn_amount,
    spec_outstanding_filter, sort_by, insert_by, proposal_le,
    claim_candidate, sT1, sT2, cX, cY, List.filter_cons, List.find?,
    txnStatus_unrec_ne_rec, txnStatus_sugg_ne_rec, str_X_ne_Y]

/-- C4 (amended): every transaction already in Reconciled status is skipped
by the bulk pass and returned unchanged at its position — a reconciled
transaction is never downgraded.  The second run's reconciled count,
however, need not be zero: in-pass candidate claiming can turn a previously
ambiguous match into an exact unique one on the re-run. -/
theorem C4_amended_skip (txns : List STxn) (pool : List CandidateDoc)
    (rules : List BankRule) (i : Nat) (t : STxn)
    (h1 : txns[i]? = some t) (h2 : t.status = TxnStatus.Reconciled) :
    ((runBulkPass txns pool rules).1)[i]? = some t :=
  run_bulk_aux_skip rules txns _ i t h1 h2

/-- C4 witness: the already reconciled fixture transaction is returned
unchanged by a bulk pass. -/
theorem C4_amended_skip_witness :
    ([sTRec][0]? = some sTRec) ∧ sTRec.status = TxnStatus.Reconciled ∧
      ((runBulkPass [sTRec] [cX] []).1)[0]? = some sTRec :=
  ⟨rfl, rfl, C4_amended_skip [sTRec] [cX] [] 0 sTRec rfl rfl⟩

/-- C6: the status invariant — Reconciled carries a voucher reference,
Suggested carries at least one offered proposal, Unreconciled carries none —
is preserved by the bulk pass: if it holds of every input transaction it
holds of every output transaction.  The matching and categorizing
operations themselves are pure queries and change no transaction. -/
theorem C6_invariant_preserved (txns : List STxn) (pool : List CandidateDoc)
    (rules : List BankRule) (h : ∀ t ∈ txns, txn_invariant t) :
    ∀ u ∈ (runBulkPass txns pool rules).1, txn_invariant u :=
  run_bulk_aux_inv rules txns _ h

/-- C6 witness: the invariant holds of the fixture transactions and of
every transaction returned by a bulk pass over them. -/
theorem C6_invariant_preserved_witness :
    (∀ t ∈ [sT1, sT2], txn_invariant t) ∧
      ∀ u ∈ (runBulkPass [sT1, sT2] [cX, cY] []).1, txn_invariant u := by
  have hinv : ∀ t ∈ [sT1, sT2], txn_invariant t := by
    intro t ht
    rcases List.mem_cons.mp ht with h1 | h2
    · rw [h1]
      simp [txn_invariant, sT1, txnStatus_unrec_ne_rec,
        txnStatus_unrec_ne_sugg]
    · have h2t : t = sT2 := by simpa using h2
      rw [h2t]
      simp [txn_invariant, sT2, txnStatus_unrec_ne_rec,
        txnStatus_unrec_ne_sugg]
  exact ⟨hinv, C6_invariant_preserved [sT1, sT2] [cX, cY] [] hinv⟩
